import Mathlib

/-!
Shallow embedding of the geometry engine of `VP_Wall_Builder.py`
(class `LEDSurfaceGenerator`): curve solving, vertex/normal/UV grid
generation, quad face tessellation, OBJ serialization and input parsing.
Python floats are modelled as real numbers; `float('inf')` as `(⊤ : EReal)`;
a Python `ZeroDivisionError` or `ValueError` as `Option.none`.
-/

namespace VPWall

/-- `Constants.SCALE_FACTOR` (source line 38): millimeters to meters. -/
def SCALE_FACTOR : ℝ := 0.001

/-- Python's `math.radians`. -/
noncomputable def radians (d : ℝ) : ℝ := d * (Real.pi / 180)

/-- The curve quantities computed in `calculate_geometry` (source lines
196-207).  `radius` is an extended real because the flat branch stores
Python's `float('inf')`. -/
structure CurveGeometry where
  radius : EReal
  start_angle : ℝ
  central_angle : ℝ
  arc_length : ℝ
  chord_length : ℝ

/-- Source lines 196-207: the arc/chord/radius block of
`LEDSurfaceGenerator.calculate_geometry`.  The guard is a literal
`tilt_angle == 0` test; in the `else` branch Python computes
`radius = arc_length / central_angle`, which raises `ZeroDivisionError`
when `central_angle` is zero (modelled as `none`). -/
noncomputable def calc_curve (cabinets_wide : ℕ) (cabinet_width_m tilt_angle : ℝ) :
    Option CurveGeometry :=
  let arc_length : ℝ := (cabinets_wide : ℝ) * cabinet_width_m
  if tilt_angle = 0 then
    some ⟨⊤, 0, 0, arc_length, arc_length⟩
  else
    let central_angle := radians (tilt_angle * ((cabinets_wide : ℝ) - 1))
    if central_angle = 0 then none
    else
      let radius := arc_length / central_angle
      some ⟨(radius : EReal), -central_angle / 2, central_angle, arc_length,
            2 * radius * Real.sin (central_angle / 2)⟩

/-- Source lines 222-230: the per-column block of `generate_vertex_data`,
computing `(vert_x, vert_z, normal_x, normal_z)` once per column `x`. -/
noncomputable def column_vals (cabinets_wide : ℕ)
    (cabinet_width_m radius start_angle central_angle tilt_angle : ℝ) (x : ℕ) :
    ℝ × ℝ × ℝ × ℝ :=
  if tilt_angle = 0 then
    ((x : ℝ) * cabinet_width_m, 0, 0, -1)
  else
    let angle := start_angle + ((x : ℝ) / (cabinets_wide : ℝ)) * central_angle
    (radius * Real.sin angle, radius * (1 - Real.cos angle),
     Real.sin angle, -Real.cos angle)

/-- Source lines 232-236: the inner-loop body of `generate_vertex_data`,
the vertex, normal and UV pair appended for grid cell `(x, y)`. -/
noncomputable def grid_cell (cabinets_wide cabinets_high : ℕ)
    (cabinet_width_m cabinet_height_m radius start_angle central_angle tilt_angle : ℝ)
    (x y : ℕ) : (ℝ × ℝ × ℝ) × (ℝ × ℝ × ℝ) × (ℝ × ℝ) :=
  let c := column_vals cabinets_wide cabinet_width_m radius start_angle central_angle
    tilt_angle x
  ((c.1, (y : ℝ) * cabinet_height_m, c.2.1),
   (c.2.2.1, (0 : ℝ), c.2.2.2),
   ((x : ℝ) / (cabinets_wide : ℝ), (y : ℝ) / (cabinets_high : ℝ)))

/-- Source lines 218-238: `LEDSurfaceGenerator.generate_vertex_data`.
The nested Python loops append one vertex, one normal and one UV pair per
grid cell, columns (`x`) outermost; modelled as a flat list of cells that
is then split into the three parallel lists. -/
noncomputable def generate_vertex_data (cabinets_wide cabinets_high : ℕ)
    (cabinet_width_m cabinet_height_m radius start_angle central_angle tilt_angle : ℝ) :
    List (ℝ × ℝ × ℝ) × List (ℝ × ℝ × ℝ) × List (ℝ × ℝ) :=
  let cells := (List.range (cabinets_wide + 1)).flatMap (fun x =>
    (List.range (cabinets_high + 1)).map (fun y =>
      grid_cell cabinets_wide cabinets_high cabinet_width_m cabinet_height_m radius
        start_angle central_angle tilt_angle x y))
  (cells.map (fun c => c.1), cells.map (fun c => c.2.1), cells.map (fun c => c.2.2))

/-- Source lines 240-249: `LEDSurfaceGenerator.generate_faces`.
`for x in range(1, cabinets_wide + 1): for y in range(cabinets_high): ...`,
appending the 0-based quad `(v1, v2, v3, v4)`. -/
def generate_faces (cabinets_wide cabinets_high : ℕ) : List (ℕ × ℕ × ℕ × ℕ) :=
  (List.range' 1 cabinets_wide).flatMap (fun x =>
    (List.range cabinets_high).map (fun y =>
      ((x - 1) * (cabinets_high + 1) + y,
       x * (cabinets_high + 1) + y,
       x * (cabinets_high + 1) + y + 1,
       (x - 1) * (cabinets_high + 1) + y + 1)))

/-- Source lines 191-216: the full `calculate_geometry` pipeline, returning
`(vertices, faces, normals, uvs)`.  In the flat branch Python passes
`float('inf')` as the radius; `generate_vertex_data` never reads the radius
when `tilt_angle = 0`, and `EReal.toReal ⊤ = 0` stands in for it here. -/
noncomputable def calculate_geometry (cabinets_wide cabinets_high : ℕ)
    (tilt_angle cabinet_width cabinet_height : ℝ) :
    Option (List (ℝ × ℝ × ℝ) × List (ℕ × ℕ × ℕ × ℕ) × List (ℝ × ℝ × ℝ) × List (ℝ × ℝ)) :=
  let cabinet_width_m := cabinet_width * SCALE_FACTOR
  let cabinet_height_m := cabinet_height * SCALE_FACTOR
  (calc_curve cabinets_wide cabinet_width_m tilt_angle).map (fun g =>
    let vnu := generate_vertex_data cabinets_wide cabinets_high cabinet_width_m
      cabinet_height_m g.radius.toReal g.start_angle g.central_angle tilt_angle
    (vnu.1, generate_faces cabinets_wide cabinets_high, vnu.2.1, vnu.2.2))

/-- The per-corner `{i+1}/{i+1}/{i+1}` fragment of a face line in
`LEDSurfaceGenerator.save_obj` (source lines 313-314): the 0-based index is
converted to 1-based and repeated for the position/UV/normal triple. -/
def corner_str (i : ℕ) : String :=
  toString (i + 1) ++ "/" ++ toString (i + 1) ++ "/" ++ toString (i + 1)

/-- Source lines 303-314: `LEDSurfaceGenerator.save_obj`, as the list of
lines written to the file.  `fmt` abstracts Python's `f"{x:.6f}"`
fixed-point rendering of a float (the 6-decimal textual rounding itself is
not modelled; it is applied uniformly to every coordinate). -/
def save_obj (fmt : ℝ → String) (vertices : List (ℝ × ℝ × ℝ))
    (faces : List (ℕ × ℕ × ℕ × ℕ)) (normals : List (ℝ × ℝ × ℝ))
    (uvs : List (ℝ × ℝ)) : List String :=
  ["# OBJ file"]
  ++ vertices.map (fun v => "v " ++ fmt v.1 ++ " " ++ fmt v.2.1 ++ " " ++ fmt v.2.2)
  ++ uvs.map (fun vt => "vt " ++ fmt vt.1 ++ " " ++ fmt vt.2)
  ++ normals.map (fun vn => "vn " ++ fmt vn.1 ++ " " ++ fmt vn.2.1 ++ " " ++ fmt vn.2.2)
  ++ faces.map (fun face => "f " ++ corner_str face.1 ++ " " ++ corner_str face.2.1
      ++ " " ++ corner_str face.2.2.1 ++ " " ++ corner_str face.2.2.2)

/-- Numeric value of a list of decimal digit characters. -/
def digitsVal (cs : List Char) : ℕ :=
  cs.foldl (fun a c => 10 * a + (c.toNat - 48)) 0

/-- A nonempty all-digit character list, or failure. -/
def parseNatDigits (cs : List Char) : Option ℕ :=
  if cs ≠ [] ∧ cs.all Char.isDigit then some (digitsVal cs) else none

/-- Python's built-in `int(text)` on the inputs relevant here: an optional
sign followed by decimal digits; anything else (in particular a decimal
point, as in `"500.5"`) raises `ValueError`, modelled as `none`.
Whitespace and underscore separators are not modelled. -/
def pyInt (s : String) : Option ℤ :=
  match s.data with
  | '-' :: rest => (parseNatDigits rest).map (fun n => -(n : ℤ))
  | '+' :: rest => (parseNatDigits rest).map (fun n => (n : ℤ))
  | cs => (parseNatDigits cs).map (fun n => (n : ℤ))

/-- Unsigned body of a Python float literal: `digits`, `digits.digits`,
`digits.` or `.digits`. -/
def parseFloatBody (cs : List Char) : Option ℚ :=
  match cs.splitOn '.' with
  | [whole] => (parseNatDigits whole).map (fun n => (n : ℚ))
  | [whole, frac] =>
      if (whole ≠ [] ∨ frac ≠ []) ∧ whole.all Char.isDigit ∧ frac.all Char.isDigit then
        some ((digitsVal whole : ℚ) + (digitsVal frac : ℚ) / 10 ^ frac.length)
      else none
  | _ => none

/-- Python's built-in `float(text)` on plain decimal literals (exponents,
`inf`/`nan` and whitespace are not modelled); failure is `ValueError`. -/
def pyFloat (s : String) : Option ℚ :=
  match s.data with
  | '-' :: rest => (parseFloatBody rest).map (fun q => -q)
  | '+' :: rest => parseFloatBody rest
  | cs => parseFloatBody cs

/-- The seven text fields of the input form, in the order
`get_input_params` reads them (source lines 180-189). -/
structure InputFields where
  cabinets_wide : String
  cabinets_high : String
  tilt_angle : String
  cabinet_width : String
  cabinet_height : String
  tile_width : String
  tile_height : String
deriving DecidableEq

/-- The parameter record built by `get_input_params`: five fields parsed
with `int(...)` (including the cabinet width and height), only
`tilt_angle` parsed with `float(...)`. -/
structure Params where
  cabinets_wide : ℤ
  cabinets_high : ℤ
  tilt_angle : ℚ
  cabinet_width : ℤ
  cabinet_height : ℤ
  tile_width : ℤ
  tile_height : ℤ
deriving DecidableEq

/-- Source lines 180-189: `LEDSurfaceGenerator.get_input_params`.  Any
parse failure raises `ValueError` (caught by the callers), modelled as
`none`. -/
def get_input_params (f : InputFields) : Option Params := do
  let cw ← pyInt f.cabinets_wide
  let ch ← pyInt f.cabinets_high
  let tilt ← pyFloat f.tilt_angle
  let w ← pyInt f.cabinet_width
  let h ← pyInt f.cabinet_height
  let tw ← pyInt f.tile_width
  let th ← pyInt f.tile_height
  pure ⟨cw, ch, tilt, w, h, tw, th⟩

/-- The flat-grid index formula of the spec, `index(x,y) = x*(cabinets_high+1)+y`. -/
def grid_index (cabinets_high x y : ℕ) : ℕ := x * (cabinets_high + 1) + y

/-- The face enumeration as the spec words it: for `x` in `1..=cabinets_wide`
and `y` in `0..cabinets_high-1`, the quad
`(index(x-1,y), index(x,y), index(x,y+1), index(x-1,y+1))`. -/
def spec_face_list (cabinets_wide cabinets_high : ℕ) : List (ℕ × ℕ × ℕ × ℕ) :=
  (List.range' 1 cabinets_wide).flatMap (fun x =>
    (List.range cabinets_high).map (fun y =>
      (grid_index cabinets_high (x - 1) y, grid_index cabinets_high x y,
       grid_index cabinets_high x (y + 1), grid_index cabinets_high (x - 1) (y + 1))))

/-! ## Helper lemmas -/

theorem flatMap_grid_length {α β : Type _} (l : List α) (m : ℕ) (f : α → ℕ → β) :
    (l.flatMap (fun a => (List.range m).map (f a))).length = l.length * m := by
  induction l with
  | nil => simp
  | cons a l ih => simp only [List.flatMap_cons, List.length_append, List.length_map,
      List.length_range, ih, List.length_cons]; ring

theorem flatMap_grid_getElem {α β : Type _} (l : List α) (m : ℕ) (f : α → ℕ → β) :
    ∀ (x y : ℕ) (hx : x < l.length), y < m →
      (l.flatMap (fun a => (List.range m).map (f a)))[x * m + y]? =
        some (f (l.get ⟨x, hx⟩) y) := by
  induction l with
  | nil => intro x y hx _; exact absurd hx (by simp)
  | cons a l ih =>
    intro x y hx hy
    rw [List.flatMap_cons]
    cases x with
    | zero =>
      rw [List.getElem?_append_left (by simpa using hy)]
      simp [List.getElem?_map, List.getElem?_range, hy]
    | succ x =>
      have hidx : (x + 1) * m + y = m + (x * m + y) := by ring
      rw [hidx, List.getElem?_append_right (by simp)]
      have hx' : x < l.length := by simpa using Nat.lt_of_succ_lt_succ hx
      have := ih x y hx' hy
      simpa using this

theorem range_grid_getElem {β : Type _} (n m : ℕ) (f : ℕ → ℕ → β) (x y : ℕ)
    (hx : x < n) (hy : y < m) :
    ((List.range n).flatMap (fun a => (List.range m).map (f a)))[x * m + y]? =
      some (f x y) := by
  have h := flatMap_grid_getElem (List.range n) m f x y (by simpa using hx) hy
  simpa using h

theorem range'_grid_getElem {β : Type _} (n m : ℕ) (f : ℕ → ℕ → β) (x y : ℕ)
    (hx : x < n) (hy : y < m) :
    ((List.range' 1 n).flatMap (fun a => (List.range m).map (f a)))[x * m + y]? =
      some (f (1 + x) y) := by
  have h := flatMap_grid_getElem (List.range' 1 n) m f x y (by simpa using hx) hy
  simpa [List.getElem_range'] using h

theorem mem_flatMap_grid {α β : Type _} {l : List α} {m : ℕ} {f : α → ℕ → β} {b : β} :
    b ∈ l.flatMap (fun a => (List.range m).map (f a)) ↔
      ∃ a ∈ l, ∃ y, y < m ∧ f a y = b := by
  simp [List.mem_flatMap, List.mem_map, List.mem_range]

theorem generate_vertex_data_lengths (cabinets_wide cabinets_high : ℕ)
    (cabinet_width_m cabinet_height_m radius start_angle central_angle tilt_angle : ℝ) :
    (generate_vertex_data cabinets_wide cabinets_high cabinet_width_m cabinet_height_m
        radius start_angle central_angle tilt_angle).1.length =
      (cabinets_wide + 1) * (cabinets_high + 1) ∧
    (generate_vertex_data cabinets_wide cabinets_high cabinet_width_m cabinet_height_m
        radius start_angle central_angle tilt_angle).2.1.length =
      (cabinets_wide + 1) * (cabinets_high + 1) ∧
    (generate_vertex_data cabinets_wide cabinets_high cabinet_width_m cabinet_height_m
        radius start_angle central_angle tilt_angle).2.2.length =
      (cabinets_wide + 1) * (cabinets_high + 1) := by
  have h := flatMap_grid_length (List.range (cabinets_wide + 1)) (cabinets_high + 1)
    (fun x y => grid_cell cabinets_wide cabinets_high cabinet_width_m cabinet_height_m
      radius start_angle central_angle tilt_angle x y)
  refine ⟨?_, ?_, ?_⟩ <;>
    simpa [generate_vertex_data] using h

theorem generate_faces_length (cabinets_wide cabinets_high : ℕ) :
    (generate_faces cabinets_wide cabinets_high).length = cabinets_wide * cabinets_high := by
  have h := flatMap_grid_length (List.range' 1 cabinets_wide) cabinets_high
    (fun x y =>
      ((x - 1) * (cabinets_high + 1) + y,
       x * (cabinets_high + 1) + y,
       x * (cabinets_high + 1) + y + 1,
       (x - 1) * (cabinets_high + 1) + y + 1))
  simpa [generate_faces] using h

theorem generate_vertex_data_vertex_getElem (cabinets_wide cabinets_high : ℕ)
    (cabinet_width_m cabinet_height_m radius start_angle central_angle tilt_angle : ℝ)
    (x y : ℕ) (hx : x ≤ cabinets_wide) (hy : y ≤ cabinets_high) :
    (generate_vertex_data cabinets_wide cabinets_high cabinet_width_m cabinet_height_m
        radius start_angle central_angle tilt_angle).1[x * (cabinets_high + 1) + y]? =
      some (grid_cell cabinets_wide cabinets_high cabinet_width_m cabinet_height_m
        radius start_angle central_angle tilt_angle x y).1 := by
  have h := range_grid_getElem (cabinets_wide + 1) (cabinets_high + 1)
    (fun a b => grid_cell cabinets_wide cabinets_high cabinet_width_m cabinet_height_m
      radius start_angle central_angle tilt_angle a b) x y
    (Nat.lt_succ_of_le hx) (Nat.lt_succ_of_le hy)
  simp [generate_vertex_data, List.getElem?_map, h]

theorem generate_vertex_data_normal_getElem (cabinets_wide cabinets_high : ℕ)
    (cabinet_width_m cabinet_height_m radius start_angle central_angle tilt_angle : ℝ)
    (x y : ℕ) (hx : x ≤ cabinets_wide) (hy : y ≤ cabinets_high) :
    (generate_vertex_data cabinets_wide cabinets_high cabinet_width_m cabinet_height_m
        radius start_angle central_angle tilt_angle).2.1[x * (cabinets_high + 1) + y]? =
      some (grid_cell cabinets_wide cabinets_high cabinet_width_m cabinet_height_m
        radius start_angle central_angle tilt_angle x y).2.1 := by
  have h := range_grid_getElem (cabinets_wide + 1) (cabinets_high + 1)
    (fun a b => grid_cell cabinets_wide cabinets_high cabinet_width_m cabinet_height_m
      radius start_angle central_angle tilt_angle a b) x y
    (Nat.lt_succ_of_le hx) (Nat.lt_succ_of_le hy)
  simp [generate_vertex_data, List.getElem?_map, h]

theorem generate_vertex_data_uv_getElem (cabinets_wide cabinets_high : ℕ)
    (cabinet_width_m cabinet_height_m radius start_angle central_angle tilt_angle : ℝ)
    (x y : ℕ) (hx : x ≤ cabinets_wide) (hy : y ≤ cabinets_high) :
    (generate_vertex_data cabinets_wide cabinets_high cabinet_width_m cabinet_height_m
        radius start_angle central_angle tilt_angle).2.2[x * (cabinets_high + 1) + y]? =
      some (grid_cell cabinets_wide cabinets_high cabinet_width_m cabinet_height_m
        radius start_angle central_angle tilt_angle x y).2.2 := by
  have h := range_grid_getElem (cabinets_wide + 1) (cabinets_high + 1)
    (fun a b => grid_cell cabinets_wide cabinets_high cabinet_width_m cabinet_height_m
      radius start_angle central_angle tilt_angle a b) x y
    (Nat.lt_succ_of_le hx) (Nat.lt_succ_of_le hy)
  simp [generate_vertex_data, List.getElem?_map, h]

theorem quad_corner_bound {cabinets_wide cabinets_high x y : ℕ}
    (hx : x ≤ cabinets_wide) (hy : y < cabinets_high) :
    x * (cabinets_high + 1) + (y + 1) < (cabinets_wide + 1) * (cabinets_high + 1) := by
  calc x * (cabinets_high + 1) + (y + 1)
      ≤ cabinets_wide * (cabinets_high + 1) + (y + 1) :=
        Nat.add_le_add_right (Nat.mul_le_mul_right _ hx) _
    _ < cabinets_wide * (cabinets_high + 1) + (cabinets_high + 1) :=
        Nat.add_lt_add_left (Nat.succ_lt_succ hy) _
    _ = (cabinets_wide + 1) * (cabinets_high + 1) := by ring

theorem generate_faces_mem {cabinets_wide cabinets_high : ℕ} {f : ℕ × ℕ × ℕ × ℕ}
    (hf : f ∈ generate_faces cabinets_wide cabinets_high) :
    ∃ x y, 1 ≤ x ∧ x ≤ cabinets_wide ∧ y < cabinets_high ∧
      f = ((x - 1) * (cabinets_high + 1) + y,
           x * (cabinets_high + 1) + y,
           x * (cabinets_high + 1) + y + 1,
           (x - 1) * (cabinets_high + 1) + y + 1) := by
  rw [generate_faces, mem_flatMap_grid] at hf
  obtain ⟨a, ha, y, hy, rfl⟩ := hf
  rw [List.mem_range'_1] at ha
  exact ⟨a, y, ha.1, by omega, hy, rfl⟩

theorem calc_curve_curved (cabinets_wide : ℕ) (cabinet_width_m tilt_angle : ℝ)
    (ht : tilt_angle ≠ 0)
    (hca : radians (tilt_angle * ((cabinets_wide : ℝ) - 1)) ≠ 0) :
    calc_curve cabinets_wide cabinet_width_m tilt_angle =
      some ⟨(((cabinets_wide : ℝ) * cabinet_width_m /
               radians (tilt_angle * ((cabinets_wide : ℝ) - 1)) : ℝ) : EReal),
            -radians (tilt_angle * ((cabinets_wide : ℝ) - 1)) / 2,
            radians (tilt_angle * ((cabinets_wide : ℝ) - 1)),
            (cabinets_wide : ℝ) * cabinet_width_m,
            2 * ((cabinets_wide : ℝ) * cabinet_width_m /
                  radians (tilt_angle * ((cabinets_wide : ℝ) - 1))) *
              Real.sin (radians (tilt_angle * ((cabinets_wide : ℝ) - 1)) / 2)⟩ := by
  simp only [calc_curve]
  rw [if_neg ht, if_neg hca]

theorem calc_curve_some_curved {cabinets_wide : ℕ} {cabinet_width_m tilt_angle : ℝ}
    {g : CurveGeometry} (ht : tilt_angle ≠ 0)
    (hg : calc_curve cabinets_wide cabinet_width_m tilt_angle = some g) :
    radians (tilt_angle * ((cabinets_wide : ℝ) - 1)) ≠ 0 ∧
    g = ⟨(((cabinets_wide : ℝ) * cabinet_width_m /
            radians (tilt_angle * ((cabinets_wide : ℝ) - 1)) : ℝ) : EReal),
         -radians (tilt_angle * ((cabinets_wide : ℝ) - 1)) / 2,
         radians (tilt_angle * ((cabinets_wide : ℝ) - 1)),
         (cabinets_wide : ℝ) * cabinet_width_m,
         2 * ((cabinets_wide : ℝ) * cabinet_width_m /
               radians (tilt_angle * ((cabinets_wide : ℝ) - 1))) *
           Real.sin (radians (tilt_angle * ((cabinets_wide : ℝ) - 1)) / 2)⟩ := by
  by_cases hca : radians (tilt_angle * ((cabinets_wide : ℝ) - 1)) = 0
  · exfalso
    simp only [calc_curve] at hg
    rw [if_neg ht, if_pos hca] at hg
    exact Option.noConfusion hg
  · refine ⟨hca, ?_⟩
    rw [calc_curve_curved _ _ _ ht hca] at hg
    exact (Option.some.inj hg).symm

theorem sin_div_self_lt_one (h : ℝ) (hne : h ≠ 0) : Real.sin h / h < 1 :=
  calc Real.sin h / h ≤ |Real.sin h / h| := le_abs_self _
    _ = |Real.sin h| / |h| := abs_div _ _
    _ < 1 := (div_lt_one (abs_pos.mpr hne)).mpr (Real.abs_sin_lt_abs hne)

/-! ## Claims -/

/-- C4: for every valid `(cabinets_wide, cabinets_high)`, the vertex, normal
and UV lists produced by `generate_vertex_data` each have exactly
`(cabinets_wide+1)*(cabinets_high+1)` entries, and `generate_faces` produces
exactly `cabinets_wide*cabinets_high` faces (each face being a quad of 4
indices by its type). -/
theorem C4_grid_cardinality (cabinets_wide cabinets_high : ℕ)
    (cabinet_width_m cabinet_height_m radius start_angle central_angle tilt_angle : ℝ)
    (hw : 1 ≤ cabinets_wide) (hh : 1 ≤ cabinets_high) :
    (generate_vertex_data cabinets_wide cabinets_high cabinet_width_m cabinet_height_m
        radius start_angle central_angle tilt_angle).1.length =
      (cabinets_wide + 1) * (cabinets_high + 1) ∧
    (generate_vertex_data cabinets_wide cabinets_high cabinet_width_m cabinet_height_m
        radius start_angle central_angle tilt_angle).2.1.length =
      (cabinets_wide + 1) * (cabinets_high + 1) ∧
    (generate_vertex_data cabinets_wide cabinets_high cabinet_width_m cabinet_height_m
        radius start_angle central_angle tilt_angle).2.2.length =
      (cabinets_wide + 1) * (cabinets_high + 1) ∧
    (generate_faces cabinets_wide cabinets_high).length = cabinets_wide * cabinets_high := by
  obtain ⟨h1, h2, h3⟩ := generate_vertex_data_lengths cabinets_wide cabinets_high
    cabinet_width_m cabinet_height_m radius start_angle central_angle tilt_angle
  exact ⟨h1, h2, h3, generate_faces_length cabinets_wide cabinets_high⟩

/-- C4 witness at `cabinets_wide = 2`, `cabinets_high = 3`. -/
theorem C4_grid_cardinality_witness :
    (generate_vertex_data 2 3 1 1 1 0 1 5).1.length = 3 * 4 ∧
    (generate_vertex_data 2 3 1 1 1 0 1 5).2.1.length = 3 * 4 ∧
    (generate_vertex_data 2 3 1 1 1 0 1 5).2.2.length = 3 * 4 ∧
    (generate_faces 2 3).length = 2 * 3 :=
  C4_grid_cardinality 2 3 1 1 1 0 1 5 (by norm_num) (by norm_num)

/-- C5: the face list enumerates, for `x` in `1..=cabinets_wide` and `y` in
`0..cabinets_high-1`, the quad
`(index(x-1,y), index(x,y), index(x,y+1), index(x-1,y+1))` in exactly that
corner order, with `index(x,y) = x*(cabinets_high+1)+y`. -/
theorem C5_face_enumeration (cabinets_wide cabinets_high : ℕ)
    (hw : 1 ≤ cabinets_wide) (hh : 1 ≤ cabinets_high) :
    generate_faces cabinets_wide cabinets_high =
      spec_face_list cabinets_wide cabinets_high := rfl

/-- C5 witness at `cabinets_wide = 2`, `cabinets_high = 3`. -/
theorem C5_face_enumeration_witness :
    generate_faces 2 3 = spec_face_list 2 3 :=
  C5_face_enumeration 2 3 (by norm_num) (by norm_num)

/-- C6: every one of the four indices of every generated face lies in
`0 .. (cabinets_wide+1)*(cabinets_high+1) - 1`, the common length of the
vertex, normal and UV arrays. -/
theorem C6_face_indices_valid (cabinets_wide cabinets_high : ℕ)
    (cabinet_width_m cabinet_height_m radius start_angle central_angle tilt_angle : ℝ)
    (hw : 1 ≤ cabinets_wide) (hh : 1 ≤ cabinets_high) :
    (∀ f ∈ generate_faces cabinets_wide cabinets_high,
      f.1 < (cabinets_wide + 1) * (cabinets_high + 1) ∧
      f.2.1 < (cabinets_wide + 1) * (cabinets_high + 1) ∧
      f.2.2.1 < (cabinets_wide + 1) * (cabinets_high + 1) ∧
      f.2.2.2 < (cabinets_wide + 1) * (cabinets_high + 1)) ∧
    (generate_vertex_data cabinets_wide cabinets_high cabinet_width_m cabinet_height_m
        radius start_angle central_angle tilt_angle).1.length =
      (cabinets_wide + 1) * (cabinets_high + 1) ∧
    (generate_vertex_data cabinets_wide cabinets_high cabinet_width_m cabinet_height_m
        radius start_angle central_angle tilt_angle).2.1.length =
      (cabinets_wide + 1) * (cabinets_high + 1) ∧
    (generate_vertex_data cabinets_wide cabinets_high cabinet_width_m cabinet_height_m
        radius start_angle central_angle tilt_angle).2.2.length =
      (cabinets_wide + 1) * (cabinets_high + 1) := by
  obtain ⟨h1, h2, h3⟩ := generate_vertex_data_lengths cabinets_wide cabinets_high
    cabinet_width_m cabinet_height_m radius start_angle central_angle tilt_angle
  refine ⟨?_, h1, h2, h3⟩
  intro f hf
  obtain ⟨x, y, hx1, hx2, hy, rfl⟩ := generate_faces_mem hf
  have hxm : x - 1 ≤ cabinets_wide := le_trans (Nat.sub_le x 1) hx2
  have hb1 := quad_corner_bound hxm hy
  have hb2 := quad_corner_bound hx2 hy
  refine ⟨?_, ?_, hb2, hb1⟩
  · exact lt_of_le_of_lt (Nat.add_le_add_left (Nat.le_succ y) _) hb1
  · exact lt_of_le_of_lt (Nat.add_le_add_left (Nat.le_succ y) _) hb2

/-- C6 witness at `cabinets_wide = 2`, `cabinets_high = 3`. -/
theorem C6_face_indices_valid_witness :
    (∀ f ∈ generate_faces 2 3,
      f.1 < 3 * 4 ∧ f.2.1 < 3 * 4 ∧ f.2.2.1 < 3 * 4 ∧ f.2.2.2 < 3 * 4) ∧
    (generate_vertex_data 2 3 1 1 1 0 1 5).1.length = 3 * 4 ∧
    (generate_vertex_data 2 3 1 1 1 0 1 5).2.1.length = 3 * 4 ∧
    (generate_vertex_data 2 3 1 1 1 0 1 5).2.2.length = 3 * 4 :=
  C6_face_indices_valid 2 3 1 1 1 0 1 5 (by norm_num) (by norm_num)

/-- C2: with `tilt_angle_degrees = 0` the curve solution is
`radius = +∞`, `start_angle = 0`, `central_angle = 0` and
`chord_length = arc_length = cabinets_wide * cabinet_width_m`, and every
vertex generated by the pipeline has z-coordinate `0` (hence all vertices
of a column share the same z). -/
theorem C2_flat_wall (cabinets_wide cabinets_high : ℕ)
    (cabinet_width cabinet_height : ℝ)
    (hw : 1 ≤ cabinets_wide) (hh : 1 ≤ cabinets_high)
    (hwp : 0 < cabinet_width) (hhp : 0 < cabinet_height) :
    calc_curve cabinets_wide (cabinet_width * SCALE_FACTOR) 0 =
      some ⟨⊤, 0, 0, (cabinets_wide : ℝ) * (cabinet_width * SCALE_FACTOR),
            (cabinets_wide : ℝ) * (cabinet_width * SCALE_FACTOR)⟩ ∧
    ∀ out, calculate_geometry cabinets_wide cabinets_high 0 cabinet_width cabinet_height =
      some out → ∀ v ∈ out.1, v.2.2 = 0 := by
  have hc : calc_curve cabinets_wide (cabinet_width * SCALE_FACTOR) 0 =
      some ⟨⊤, 0, 0, (cabinets_wide : ℝ) * (cabinet_width * SCALE_FACTOR),
            (cabinets_wide : ℝ) * (cabinet_width * SCALE_FACTOR)⟩ := by
    simp [calc_curve]
  refine ⟨hc, ?_⟩
  intro out hout v hv
  simp only [calculate_geometry, hc, Option.map_some', Option.some.injEq] at hout
  subst hout
  simp only [generate_vertex_data, List.mem_map] at hv
  obtain ⟨c, hcm, rfl⟩ := hv
  rw [mem_flatMap_grid] at hcm
  obtain ⟨a, _, y, _, rfl⟩ := hcm
  simp [grid_cell, column_vals]

/-- C2 witness at the spec's concrete flat scenario
(`cabinets_wide = 2`, `cabinets_high = 1`, 500 mm cabinets). -/
theorem C2_flat_wall_witness :
    calc_curve 2 (500 * SCALE_FACTOR) 0 =
      some ⟨⊤, 0, 0, ((2 : ℕ) : ℝ) * (500 * SCALE_FACTOR),
            ((2 : ℕ) : ℝ) * (500 * SCALE_FACTOR)⟩ ∧
    ∀ out, calculate_geometry 2 1 0 500 500 = some out → ∀ v ∈ out.1, v.2.2 = 0 :=
  C2_flat_wall 2 1 500 500 (by norm_num) (by norm_num) (by norm_num) (by norm_num)

/-- C7: in the curved case (`tilt_angle ≠ 0`) the grid cell `(x, y)` of the
column-major vertex list sits at flat index `x*(cabinets_high+1)+y` and
equals `(radius*sin(angle), y*cabinet_height_m, radius*(1-cos(angle)))`
with `angle = start_angle + (x/cabinets_wide)*central_angle`; its normal is
`(sin(angle), 0, -cos(angle))` and its UV is
`(x/cabinets_wide, y/cabinets_high)`. -/
theorem C7_curved_vertex_grid (cabinets_wide cabinets_high : ℕ)
    (cabinet_width_m cabinet_height_m radius start_angle central_angle tilt_angle : ℝ)
    (hw : 1 ≤ cabinets_wide) (hh : 1 ≤ cabinets_high) (ht : tilt_angle ≠ 0)
    (x y : ℕ) (hx : x ≤ cabinets_wide) (hy : y ≤ cabinets_high) :
    (generate_vertex_data cabinets_wide cabinets_high cabinet_width_m cabinet_height_m
        radius start_angle central_angle tilt_angle).1[x * (cabinets_high + 1) + y]? =
      some (radius * Real.sin (start_angle +
              ((x : ℝ) / (cabinets_wide : ℝ)) * central_angle),
            (y : ℝ) * cabinet_height_m,
            radius * (1 - Real.cos (start_angle +
              ((x : ℝ) / (cabinets_wide : ℝ)) * central_angle))) ∧
    (generate_vertex_data cabinets_wide cabinets_high cabinet_width_m cabinet_height_m
        radius start_angle central_angle tilt_angle).2.1[x * (cabinets_high + 1) + y]? =
      some (Real.sin (start_angle + ((x : ℝ) / (cabinets_wide : ℝ)) * central_angle),
            0,
            -Real.cos (start_angle + ((x : ℝ) / (cabinets_wide : ℝ)) * central_angle)) ∧
    (generate_vertex_data cabinets_wide cabinets_high cabinet_width_m cabinet_height_m
        radius start_angle central_angle tilt_angle).2.2[x * (cabinets_high + 1) + y]? =
      some ((x : ℝ) / (cabinets_wide : ℝ), (y : ℝ) / (cabinets_high : ℝ)) := by
  have h1 := generate_vertex_data_vertex_getElem cabinets_wide cabinets_high
    cabinet_width_m cabinet_height_m radius start_angle central_angle tilt_angle x y hx hy
  have h2 := generate_vertex_data_normal_getElem cabinets_wide cabinets_high
    cabinet_width_m cabinet_height_m radius start_angle central_angle tilt_angle x y hx hy
  have h3 := generate_vertex_data_uv_getElem cabinets_wide cabinets_high
    cabinet_width_m cabinet_height_m radius start_angle central_angle tilt_angle x y hx hy
  refine ⟨?_, ?_, ?_⟩
  · rw [h1]; simp [grid_cell, column_vals, if_neg ht]
  · rw [h2]; simp [grid_cell, column_vals, if_neg ht]
  · rw [h3]; simp [grid_cell, column_vals]

/-- C7 witness at `cabinets_wide = 2`, `cabinets_high = 1`, tilt 10,
cell `(1, 1)`. -/
theorem C7_curved_vertex_grid_witness :
    (generate_vertex_data 2 1 1 1 2 1 1 10).1[1 * (1 + 1) + 1]? =
      some (2 * Real.sin (1 + (((1 : ℕ) : ℝ) / ((2 : ℕ) : ℝ)) * 1),
            ((1 : ℕ) : ℝ) * 1,
            2 * (1 - Real.cos (1 + (((1 : ℕ) : ℝ) / ((2 : ℕ) : ℝ)) * 1))) ∧
    (generate_vertex_data 2 1 1 1 2 1 1 10).2.1[1 * (1 + 1) + 1]? =
      some (Real.sin (1 + (((1 : ℕ) : ℝ) / ((2 : ℕ) : ℝ)) * 1), 0,
            -Real.cos (1 + (((1 : ℕ) : ℝ) / ((2 : ℕ) : ℝ)) * 1)) ∧
    (generate_vertex_data 2 1 1 1 2 1 1 10).2.2[1 * (1 + 1) + 1]? =
      some (((1 : ℕ) : ℝ) / ((2 : ℕ) : ℝ), ((1 : ℕ) : ℝ) / ((1 : ℕ) : ℝ)) :=
  C7_curved_vertex_grid 2 1 1 1 2 1 1 10 (by norm_num) (by norm_num) (by norm_num)
    1 1 (by norm_num) (by norm_num)

/-- C1 (evidence of the code bug): with `cabinets_wide = 1` and the nonzero
tilt `5`, `calculate_geometry`'s curve block does NOT take the flat branch:
the guard only tests `tilt_angle == 0`, so the curved branch runs with
`central_angle = 0` and the division `arc_length / central_angle` raises
`ZeroDivisionError` (modelled as `none`), contradicting the claim that the
division is unreachable. -/
theorem C1_single_column_division_by_zero :
    calc_curve 1 (500 * SCALE_FACTOR) 5 = none := by
  have hca : radians (5 * (((1 : ℕ) : ℝ) - 1)) = 0 := by simp [radians]
  simp only [calc_curve]
  rw [if_neg (by norm_num : (5 : ℝ) ≠ 0), if_pos hca]

/-- C3: for nonzero tilt with `cabinets_wide > 1` (hence nonzero central
angle), the computed `chord_length = 2*radius*sin(central_angle/2)` is
strictly smaller than `arc_length`. -/
theorem C3_chord_lt_arc (cabinets_wide : ℕ) (cabinet_width_m tilt_angle : ℝ)
    (hcw : 2 ≤ cabinets_wide) (hwm : 0 < cabinet_width_m) (ht : tilt_angle ≠ 0)
    (g : CurveGeometry)
    (hg : calc_curve cabinets_wide cabinet_width_m tilt_angle = some g)
    (hca : g.central_angle ≠ 0) :
    g.chord_length < g.arc_length := by
  obtain ⟨hca0, rfl⟩ := calc_curve_some_curved ht hg
  show 2 * ((cabinets_wide : ℝ) * cabinet_width_m /
        radians (tilt_angle * ((cabinets_wide : ℝ) - 1))) *
      Real.sin (radians (tilt_angle * ((cabinets_wide : ℝ) - 1)) / 2) <
    (cabinets_wide : ℝ) * cabinet_width_m
  set ca := radians (tilt_angle * ((cabinets_wide : ℝ) - 1)) with hca_def
  set arc := (cabinets_wide : ℝ) * cabinet_width_m with harc_def
  have hcwpos : (0 : ℝ) < (cabinets_wide : ℝ) := by
    have : 0 < cabinets_wide := lt_of_lt_of_le (by norm_num) hcw
    exact_mod_cast this
  have harc : 0 < arc := mul_pos hcwpos hwm
  have hh : ca / 2 ≠ 0 := div_ne_zero hca0 two_ne_zero
  have hkey : Real.sin (ca / 2) / (ca / 2) < 1 := sin_div_self_lt_one _ hh
  have hrw : 2 * (arc / ca) * Real.sin (ca / 2) =
      arc * (Real.sin (ca / 2) / (ca / 2)) := by
    field_simp
    ring
  rw [hrw]
  calc arc * (Real.sin (ca / 2) / (ca / 2)) < arc * 1 :=
        (mul_lt_mul_left harc).mpr hkey
    _ = arc := mul_one arc

/-- C3 witness at the spec's curved scenario: `cabinets_wide = 3`,
`cabinet_width_m = 1`, tilt 10 degrees. -/
theorem C3_chord_lt_arc_witness :
    2 * (((3 : ℕ) : ℝ) * 1 / radians (10 * (((3 : ℕ) : ℝ) - 1))) *
        Real.sin (radians (10 * (((3 : ℕ) : ℝ) - 1)) / 2) <
      ((3 : ℕ) : ℝ) * 1 := by
  have hca : radians (10 * (((3 : ℕ) : ℝ) - 1)) ≠ 0 := by
    rw [radians]
    exact mul_ne_zero (by norm_num)
      (div_ne_zero Real.pi_ne_zero (by norm_num))
  exact C3_chord_lt_arc 3 1 10 (by norm_num) (by norm_num) (by norm_num)
    _ (calc_curve_curved 3 1 10 (by norm_num) hca) hca

/-- C10: negating a nonzero tilt (with `cabinets_wide > 1`) mirrors the
wall in depth: the curve block yields the same `arc_length` and
`chord_length`, and the vertex at grid cell `(x, y)` keeps its x and y
coordinates while its z coordinate is negated. -/
theorem C10_tilt_mirror (cabinets_wide cabinets_high : ℕ)
    (cabinet_width_m cabinet_height_m tilt_angle : ℝ)
    (hcw : 2 ≤ cabinets_wide) (hch : 1 ≤ cabinets_high) (ht : tilt_angle ≠ 0)
    (g g' : CurveGeometry)
    (hg : calc_curve cabinets_wide cabinet_width_m tilt_angle = some g)
    (hg' : calc_curve cabinets_wide cabinet_width_m (-tilt_angle) = some g')
    (x y : ℕ) (hx : x ≤ cabinets_wide) (hy : y ≤ cabinets_high) :
    g'.arc_length = g.arc_length ∧ g'.chord_length = g.chord_length ∧
    (generate_vertex_data cabinets_wide cabinets_high cabinet_width_m cabinet_height_m
        g'.radius.toReal g'.start_angle g'.central_angle
        (-tilt_angle)).1[x * (cabinets_high + 1) + y]? =
      Option.map (fun v : ℝ × ℝ × ℝ => (v.1, v.2.1, -v.2.2))
        ((generate_vertex_data cabinets_wide cabinets_high cabinet_width_m cabinet_height_m
            g.radius.toReal g.start_angle g.central_angle
            tilt_angle).1[x * (cabinets_high + 1) + y]?) := by
  have ht' : -tilt_angle ≠ 0 := neg_ne_zero.mpr ht
  obtain ⟨hca, rfl⟩ := calc_curve_some_curved ht hg
  obtain ⟨hca', rfl⟩ := calc_curve_some_curved ht' hg'
  have hcaeq : radians (-tilt_angle * ((cabinets_wide : ℝ) - 1)) =
      -radians (tilt_angle * ((cabinets_wide : ℝ) - 1)) := by
    rw [radians, radians]; ring
  refine ⟨rfl, ?_, ?_⟩
  · show 2 * ((cabinets_wide : ℝ) * cabinet_width_m /
          radians (-tilt_angle * ((cabinets_wide : ℝ) - 1))) *
        Real.sin (radians (-tilt_angle * ((cabinets_wide : ℝ) - 1)) / 2) =
      2 * ((cabinets_wide : ℝ) * cabinet_width_m /
          radians (tilt_angle * ((cabinets_wide : ℝ) - 1))) *
        Real.sin (radians (tilt_angle * ((cabinets_wide : ℝ) - 1)) / 2)
    rw [hcaeq, div_neg, neg_div, Real.sin_neg]
    ring
  · rw [generate_vertex_data_vertex_getElem _ _ _ _ _ _ _ _ x y hx hy,
        generate_vertex_data_vertex_getElem _ _ _ _ _ _ _ _ x y hx hy]
    simp only [Option.map_some']
    simp only [grid_cell, column_vals, if_neg ht, if_neg ht', EReal.toReal_coe]
    rw [hcaeq]
    have hangle : -(-radians (tilt_angle * ((cabinets_wide : ℝ) - 1))) / 2 +
        ((x : ℝ) / (cabinets_wide : ℝ)) *
          (-radians (tilt_angle * ((cabinets_wide : ℝ) - 1))) =
        -(-radians (tilt_angle * ((cabinets_wide : ℝ) - 1)) / 2 +
          ((x : ℝ) / (cabinets_wide : ℝ)) *
            radians (tilt_angle * ((cabinets_wide : ℝ) - 1))) := by
      ring
    rw [hangle, Real.sin_neg, Real.cos_neg, div_neg]
    simp only [Option.some.injEq, Prod.mk.injEq]
    exact ⟨by ring, trivial, by ring⟩

/-- C10 witness at `cabinets_wide = 2`, `cabinets_high = 1`, tilts `10` and
`-10`, grid cell `(1, 0)`. -/
theorem C10_tilt_mirror_witness :
    ((2 : ℕ) : ℝ) * 1 = ((2 : ℕ) : ℝ) * 1 ∧
    2 * (((2 : ℕ) : ℝ) * 1 / radians (-10 * (((2 : ℕ) : ℝ) - 1))) *
        Real.sin (radians (-10 * (((2 : ℕ) : ℝ) - 1)) / 2) =
      2 * (((2 : ℕ) : ℝ) * 1 / radians (10 * (((2 : ℕ) : ℝ) - 1))) *
        Real.sin (radians (10 * (((2 : ℕ) : ℝ) - 1)) / 2) ∧
    (generate_vertex_data 2 1 1 1
        ((((2 : ℕ) : ℝ) * 1 / radians (-10 * (((2 : ℕ) : ℝ) - 1)) : ℝ) : EReal).toReal
        (-radians (-10 * (((2 : ℕ) : ℝ) - 1)) / 2)
        (radians (-10 * (((2 : ℕ) : ℝ) - 1))) (-10)).1[1 * (1 + 1) + 0]? =
      Option.map (fun v : ℝ × ℝ × ℝ => (v.1, v.2.1, -v.2.2))
        ((generate_vertex_data 2 1 1 1
            ((((2 : ℕ) : ℝ) * 1 / radians (10 * (((2 : ℕ) : ℝ) - 1)) : ℝ) : EReal).toReal
            (-radians (10 * (((2 : ℕ) : ℝ) - 1)) / 2)
            (radians (10 * (((2 : ℕ) : ℝ) - 1))) 10).1[1 * (1 + 1) + 0]?) := by
  have hca : radians (10 * (((2 : ℕ) : ℝ) - 1)) ≠ 0 := by
    rw [radians]
    exact mul_ne_zero (by norm_num) (div_ne_zero Real.pi_ne_zero (by norm_num))
  have hca' : radians (-10 * (((2 : ℕ) : ℝ) - 1)) ≠ 0 := by
    rw [radians]
    exact mul_ne_zero (by norm_num) (div_ne_zero Real.pi_ne_zero (by norm_num))
  exact C10_tilt_mirror 2 1 1 1 10 (by norm_num) (by norm_num) (by norm_num)
    _ _ (calc_curve_curved 2 1 10 (by norm_num) hca)
    (calc_curve_curved 2 1 (-10) (by norm_num) hca')
    1 0 (by norm_num) (by norm_num)

theorem getElem?_append_offset {α : Type _} (l₁ l₂ : List α) (i j : ℕ)
    (hj : j = l₁.length + i) : (l₁ ++ l₂)[j]? = l₂[i]? := by
  subst hj
  rw [List.getElem?_append_right (Nat.le_add_right _ _)]
  simp

/-- C8: the OBJ serializer emits, in this fixed order: one comment header
line, one `v` line per vertex, one `vt` line per UV, one `vn` line per
normal, then one face line per face in which each corner repeats its single
0-based index converted to 1-based for the position/UV/normal triple
(`corner_str`).  `fmt` is the fixed 6-decimal number formatter, applied to
every coordinate. -/
theorem C8_obj_layout (fmt : ℝ → String) (V : List (ℝ × ℝ × ℝ))
    (F : List (ℕ × ℕ × ℕ × ℕ)) (N : List (ℝ × ℝ × ℝ)) (U : List (ℝ × ℝ)) :
    (save_obj fmt V F N U).length = 1 + V.length + U.length + N.length + F.length ∧
    (save_obj fmt V F N U)[0]? = some "# OBJ file" ∧
    (∀ i, (hi : i < V.length) →
      (save_obj fmt V F N U)[1 + i]? =
        some ("v " ++ fmt (V.get ⟨i, hi⟩).1 ++ " " ++ fmt (V.get ⟨i, hi⟩).2.1 ++ " " ++
          fmt (V.get ⟨i, hi⟩).2.2)) ∧
    (∀ i, (hi : i < U.length) →
      (save_obj fmt V F N U)[1 + V.length + i]? =
        some ("vt " ++ fmt (U.get ⟨i, hi⟩).1 ++ " " ++ fmt (U.get ⟨i, hi⟩).2)) ∧
    (∀ i, (hi : i < N.length) →
      (save_obj fmt V F N U)[1 + V.length + U.length + i]? =
        some ("vn " ++ fmt (N.get ⟨i, hi⟩).1 ++ " " ++ fmt (N.get ⟨i, hi⟩).2.1 ++ " " ++
          fmt (N.get ⟨i, hi⟩).2.2)) ∧
    (∀ i, (hi : i < F.length) →
      (save_obj fmt V F N U)[1 + V.length + U.length + N.length + i]? =
        some ("f " ++ corner_str (F.get ⟨i, hi⟩).1 ++ " " ++
          corner_str (F.get ⟨i, hi⟩).2.1 ++ " " ++ corner_str (F.get ⟨i, hi⟩).2.2.1 ++
          " " ++ corner_str (F.get ⟨i, hi⟩).2.2.2)) := by
  refine ⟨?_, ?_, ?_, ?_, ?_, ?_⟩
  · simp only [save_obj, List.length_append, List.length_map, List.length_cons,
      List.length_nil]
  · simp [save_obj, List.getElem?_append]
  · intro i hi
    rw [save_obj, List.getElem?_append_left (by simp; omega),
      List.getElem?_append_left (by simp; omega),
      List.getElem?_append_left (by simp; omega),
      getElem?_append_offset _ _ i (1 + i) (by simp),
      List.getElem?_map, List.getElem?_eq_getElem hi]
    simp
  · intro i hi
    rw [save_obj, List.getElem?_append_left (by simp; omega),
      List.getElem?_append_left (by simp; omega),
      getElem?_append_offset _ _ i (1 + V.length + i) (by simp; omega),
      List.getElem?_map, List.getElem?_eq_getElem hi]
    simp
  · intro i hi
    rw [save_obj, List.getElem?_append_left (by simp; omega),
      getElem?_append_offset _ _ i (1 + V.length + U.length + i) (by simp; omega),
      List.getElem?_map, List.getElem?_eq_getElem hi]
    simp
  · intro i hi
    rw [save_obj,
      getElem?_append_offset _ _ i (1 + V.length + U.length + N.length + i)
        (by simp; omega),
      List.getElem?_map, List.getElem?_eq_getElem hi]
    simp

/-- C8 witness on a one-element mesh with an abstract constant formatter. -/
theorem C8_obj_layout_witness :
    ((save_obj (fun r => "x") [(1, 2, 3)] [(0, 1, 2, 3)] [(0, 0, -1)]
        [(0, 0)]).length = 1 + 1 + 1 + 1 + 1) ∧
    ((save_obj (fun r => "x") [(1, 2, 3)] [(0, 1, 2, 3)] [(0, 0, -1)]
        [(0, 0)])[0]? = some "# OBJ file") ∧
    (∀ i, (hi : i < [((1 : ℝ), (2 : ℝ), (3 : ℝ))].length) →
      (save_obj (fun r => "x") [(1, 2, 3)] [(0, 1, 2, 3)] [(0, 0, -1)]
          [(0, 0)])[1 + i]? =
        some ("v " ++ (fun r : ℝ => "x") ([((1 : ℝ), (2 : ℝ), (3 : ℝ))].get ⟨i, hi⟩).1 ++
          " " ++ (fun r : ℝ => "x") ([((1 : ℝ), (2 : ℝ), (3 : ℝ))].get ⟨i, hi⟩).2.1 ++
          " " ++ (fun r : ℝ => "x") ([((1 : ℝ), (2 : ℝ), (3 : ℝ))].get ⟨i, hi⟩).2.2)) ∧
    (∀ i, (hi : i < [((0 : ℝ), (0 : ℝ))].length) →
      (save_obj (fun r => "x") [(1, 2, 3)] [(0, 1, 2, 3)] [(0, 0, -1)]
          [(0, 0)])[1 + 1 + i]? =
        some ("vt " ++ (fun r : ℝ => "x") ([((0 : ℝ), (0 : ℝ))].get ⟨i, hi⟩).1 ++ " " ++
          (fun r : ℝ => "x") ([((0 : ℝ), (0 : ℝ))].get ⟨i, hi⟩).2)) ∧
    (∀ i, (hi : i < [((0 : ℝ), (0 : ℝ), (-1 : ℝ))].length) →
      (save_obj (fun r => "x") [(1, 2, 3)] [(0, 1, 2, 3)] [(0, 0, -1)]
          [(0, 0)])[1 + 1 + 1 + i]? =
        some ("vn " ++ (fun r : ℝ => "x") ([((0 : ℝ), (0 : ℝ), (-1 : ℝ))].get ⟨i, hi⟩).1 ++
          " " ++ (fun r : ℝ => "x") ([((0 : ℝ), (0 : ℝ), (-1 : ℝ))].get ⟨i, hi⟩).2.1 ++
          " " ++ (fun r : ℝ => "x") ([((0 : ℝ), (0 : ℝ), (-1 : ℝ))].get ⟨i, hi⟩).2.2)) ∧
    (∀ i, (hi : i < [((0 : ℕ), (1 : ℕ), (2 : ℕ), (3 : ℕ))].length) →
      (save_obj (fun r => "x") [(1, 2, 3)] [(0, 1, 2, 3)] [(0, 0, -1)]
          [(0, 0)])[1 + 1 + 1 + 1 + i]? =
        some ("f " ++ corner_str ([((0 : ℕ), (1 : ℕ), (2 : ℕ), (3 : ℕ))].get ⟨i, hi⟩).1 ++
          " " ++ corner_str ([((0 : ℕ), (1 : ℕ), (2 : ℕ), (3 : ℕ))].get ⟨i, hi⟩).2.1 ++
          " " ++ corner_str ([((0 : ℕ), (1 : ℕ), (2 : ℕ), (3 : ℕ))].get ⟨i, hi⟩).2.2.1 ++
          " " ++ corner_str ([((0 : ℕ), (1 : ℕ), (2 : ℕ), (3 : ℕ))].get ⟨i, hi⟩).2.2.2)) :=
  C8_obj_layout (fun r => "x") [(1, 2, 3)] [(0, 1, 2, 3)] [(0, 0, -1)] [(0, 0)]

/-- C9 counterexample: `get_input_params` parses the cabinet width with
`int(...)`, so the positive real width `500.5` mm is rejected with
`ValueError` — parameter acquisition does not preserve arbitrary positive
reals for `cabinet_width_mm`/`cabinet_height_mm`. -/
theorem C9_real_width_rejected :
    get_input_params ⟨"36", "8", "5", "500.5", "500", "64", "64"⟩ = none := by decide

/-- C9 (amended): parameter acquisition parses `cabinet_width_mm` and
`cabinet_height_mm` with `int(...)`: whenever those two fields parse as
integers `w` and `h`, the integers are preserved exactly in the parameter
record; only `tilt_angle` is parsed as a real (`float(...)`). -/
theorem C9_integer_widths_preserved (ws hs : String) (w h : ℤ)
    (hw : pyInt ws = some w) (hh : pyInt hs = some h) :
    get_input_params ⟨"36", "8", "5", ws, hs, "64", "64"⟩ =
      some ⟨36, 8, 5, w, h, 64, 64⟩ := by
  have h36 : pyInt "36" = some 36 := by decide
  have h8 : pyInt "8" = some 8 := by decide
  have h5 : pyFloat "5" = some 5 := by decide
  have h64 : pyInt "64" = some 64 := by decide
  simp [get_input_params, h36, h8, h5, h64, hw, hh]

/-- C9 witness: integer-valued width/height strings are accepted and
preserved. -/
theorem C9_integer_widths_preserved_witness :
    pyInt "500" = some 500 ∧
    get_input_params ⟨"36", "8", "5", "500", "500", "64", "64"⟩ =
      some ⟨36, 8, 5, 500, 500, 64, 64⟩ :=
  ⟨by decide, C9_integer_widths_preserved "500" "500" 500 500 (by decide) (by decide)⟩

end VPWall
